import Mathlib

/-!
Verification of the `examples/gravitational_waves_detection.ipynb` notebook.

The notebook is glue code: it generates a synthetic dataset, runs a chain of
topological-data-analysis transformers from an external library, trains a
logistic-regression classifier and prints metrics.  We embed, faithfully to
the notebook's code cells, the sequence of library calls it performs (with
the variables each call reads and writes, its keyword parameters and its
side effects), the data-generation function (modelled from the spec, since
`data/generate_datasets.py` is not part of this artifact), the pipeline
chaining, and the small numeric functions whose behaviour the claims
mention (`accuracy_score`, `roc_auc_score`, `np.argmin`, `np.argmax`,
Python's `round(v, 3)`).
-/

/-- Kinds of operations the notebook invokes, one per library call that the
notebook's code cells perform, in the notebook's own vocabulary. -/
inductive OpKind where
  | videoDisplay
  | dataGen
  | printLine
  | argminOp
  | argmaxOp
  | sliceOp
  | subplots
  | addTrace
  | figShow
  | singleTakens
  | pcaFit
  | plotPointCloud
  | takensE
  | collectionPca
  | vietorisRips
  | diagramScaler
  | persistenceEntropy
  | trainTestSplit
  | logregInit
  | logregFit
  | predictOp
  | predictProbaOp
  | accuracyOp
  | rocAucOp
  deriving DecidableEq, Repr, BEq

/-- Side effects a notebook statement can perform.  `writesFile` is
expressible so that its absence from the notebook is a statement about the
code, not about the modelling language. -/
inductive Effect where
  | readsFile (path : String)
  | writesFile (path : String)
  | stdout
  | display
  deriving DecidableEq, Repr, BEq

/-- One library call of the notebook: its kind, the notebook variables it
reads, the variables it (re)binds, the keyword parameters passed at the
call site, its effects, and whether it is one of the five steps executed
inside the single `topological_transfomer.fit_transform` call. -/
structure LibCall where
  kind : OpKind
  reads : List String
  writes : List String
  params : List (String × String)
  effects : List Effect
  pipe : Bool := false
  deriving DecidableEq, Repr, BEq

/-- The sequence of library calls performed when the notebook is run top to
bottom, transcribed cell by cell from the source.  The five transformers of
the pipeline appear in the order `Pipeline.fit_transform` applies them, and
the body of `print_scores` is expanded at its single call site in the order
Python evaluates it (dict-literal entries left to right, then the four
`print` statements). -/
def notebookCalls : List LibCall := [
  { kind := .videoDisplay, reads := [], writes := [],
    params := [("id", "Y3eR49ogsF0"), ("width", "600"), ("height", "400")],
    effects := [.display] },
  { kind := .videoDisplay, reads := [], writes := [],
    params := [("id", "QyDcTbR-kEA"), ("width", "600"), ("height", "400")],
    effects := [.display] },
  { kind := .dataGen, reads := [],
    writes := ["noisy_signals", "gw_signals", "labels"],
    params := [("path_to_data", "./data"), ("n_signals", "100"),
               ("r_min", "0.65"), ("r_max", "0.65"), ("n_snr_values", "1")],
    effects := [.readsFile "./data"] },
  { kind := .printLine, reads := ["noisy_signals"], writes := [],
    params := [], effects := [.stdout] },
  { kind := .printLine, reads := ["noisy_signals"], writes := [],
    params := [], effects := [.stdout] },
  { kind := .argminOp, reads := ["labels"], writes := ["background_idx"],
    params := [], effects := [] },
  { kind := .argmaxOp, reads := ["labels"], writes := ["signal_idx"],
    params := [], effects := [] },
  { kind := .sliceOp, reads := ["noisy_signals", "background_idx"],
    writes := ["ts_noise"], params := [], effects := [] },
  { kind := .sliceOp, reads := ["noisy_signals", "signal_idx"],
    writes := ["ts_background"], params := [], effects := [] },
  { kind := .sliceOp, reads := ["gw_signals", "signal_idx"],
    writes := ["ts_signal"], params := [], effects := [] },
  { kind := .subplots, reads := [], writes := ["fig"],
    params := [("rows", "1"), ("cols", "2")], effects := [] },
  { kind := .addTrace, reads := ["fig", "ts_noise"], writes := ["fig"],
    params := [("row", "1"), ("col", "1")], effects := [] },
  { kind := .addTrace, reads := ["fig", "ts_background"], writes := ["fig"],
    params := [("row", "1"), ("col", "2")], effects := [] },
  { kind := .addTrace, reads := ["fig", "ts_signal"], writes := ["fig"],
    params := [("row", "1"), ("col", "2")], effects := [] },
  { kind := .figShow, reads := ["fig"], writes := [],
    params := [], effects := [.display] },
  { kind := .singleTakens, reads := ["gw_signals"],
    writes := ["y_gw_embedded"],
    params := [("parameters_type", "search"), ("n_jobs", "6"),
               ("time_delay", "30"), ("dimension", "30"), ("stride", "5")],
    effects := [] },
  { kind := .pcaFit, reads := ["y_gw_embedded"],
    writes := ["y_gw_embedded_pca"],
    params := [("n_components", "3")], effects := [] },
  { kind := .plotPointCloud, reads := ["y_gw_embedded_pca"], writes := [],
    params := [], effects := [.display] },
  { kind := .singleTakens, reads := ["noisy_signals", "background_idx"],
    writes := ["y_noise_embedded"],
    params := [("parameters_type", "search"), ("n_jobs", "6"),
               ("time_delay", "30"), ("dimension", "30"), ("stride", "5")],
    effects := [] },
  { kind := .pcaFit, reads := ["y_noise_embedded"],
    writes := ["y_noise_embedded_pca"],
    params := [("n_components", "3")], effects := [] },
  { kind := .plotPointCloud, reads := ["y_noise_embedded_pca"], writes := [],
    params := [], effects := [.display] },
  { kind := .takensE, reads := ["noisy_signals"], writes := ["_point_clouds"],
    params := [("time_delay", "10"), ("dimension", "200"), ("stride", "10")],
    effects := [], pipe := true },
  { kind := .collectionPca, reads := ["_point_clouds"],
    writes := ["_clouds_3d"],
    params := [("n_components", "3"), ("n_jobs", "-1")],
    effects := [], pipe := true },
  { kind := .vietorisRips, reads := ["_clouds_3d"], writes := ["_diagrams"],
    params := [("homology_dimensions", "[0, 1]"), ("n_jobs", "-1")],
    effects := [], pipe := true },
  { kind := .diagramScaler, reads := ["_diagrams"],
    writes := ["_diagrams_scaled"],
    params := [], effects := [], pipe := true },
  { kind := .persistenceEntropy, reads := ["_diagrams_scaled"],
    writes := ["features"],
    params := [("normalize", "True"), ("nan_fill_value", "-10")],
    effects := [], pipe := true },
  { kind := .trainTestSplit, reads := ["features", "labels"],
    writes := ["X_train", "X_valid", "y_train", "y_valid"],
    params := [("test_size", "0.1"), ("random_state", "42")],
    effects := [] },
  { kind := .logregInit, reads := [], writes := ["model"],
    params := [], effects := [] },
  { kind := .logregFit, reads := ["model", "X_train", "y_train"],
    writes := ["model"], params := [], effects := [] },
  { kind := .predictOp, reads := ["model", "X_train"],
    writes := ["_pred_train"], params := [], effects := [] },
  { kind := .accuracyOp, reads := ["_pred_train", "y_train"],
    writes := ["_acc_train"], params := [], effects := [] },
  { kind := .predictProbaOp, reads := ["model", "X_train"],
    writes := ["_proba_train"], params := [], effects := [] },
  { kind := .rocAucOp, reads := ["y_train", "_proba_train"],
    writes := ["_auc_train"], params := [], effects := [] },
  { kind := .predictOp, reads := ["model", "X_valid"],
    writes := ["_pred_valid"], params := [], effects := [] },
  { kind := .accuracyOp, reads := ["_pred_valid", "y_valid"],
    writes := ["_acc_valid"], params := [], effects := [] },
  { kind := .predictProbaOp, reads := ["model", "X_valid"],
    writes := ["_proba_valid"], params := [], effects := [] },
  { kind := .rocAucOp, reads := ["y_valid", "_proba_valid"],
    writes := ["_auc_valid"], params := [], effects := [] },
  { kind := .printLine, reads := ["_acc_train"], writes := [],
    params := [], effects := [.stdout] },
  { kind := .printLine, reads := ["_auc_train"], writes := [],
    params := [], effects := [.stdout] },
  { kind := .printLine, reads := ["_acc_valid"], writes := [],
    params := [], effects := [.stdout] },
  { kind := .printLine, reads := ["_auc_valid"], writes := [],
    params := [], effects := [.stdout] }]

/-- Sequencing discipline: starting from `written`, every call reads only
variables already bound, and binds its own outputs for later calls. -/
def wellSeqFrom (written : List String) : List LibCall → Bool
  | [] => true
  | c :: rest =>
      c.reads.all (fun r => written.contains r) &&
        wellSeqFrom (written ++ c.writes) rest

/-- Every call of the program reads only variables written earlier. -/
def wellSequenced (l : List LibCall) : Bool := wellSeqFrom [] l

/-- The three parallel collections returned by the data generator: noisy
time series, ground-truth gravitational-wave signals, and labels. -/
structure GWData where
  noisy_signals : List (List ℚ)
  gw_signals : List (List ℚ)
  labels : List ℕ
  deriving DecidableEq, Repr

/-- Number of timesteps per generated series (the spec does not fix it). -/
def seriesLen : ℕ := 5

/-- Deterministic stand-in for the i-th reference gravitational-wave
signal (a decaying waveform). -/
def refSignal (i : ℕ) : List ℚ :=
  (List.range seriesLen).map (fun t => ((i : ℚ) + 1) / ((t : ℚ) + 1))

/-- Deterministic stand-in for the Gaussian noise sample of series i. -/
def noiseAt (i : ℕ) : List ℚ :=
  (List.range seriesLen).map (fun t => (((i * 7 + t * 3) % 5 : ℕ) : ℚ) - 2)

/-- Noise amplitude scale: the spec's epsilon = 10^(-19). -/
def epsNoise : ℚ := 1 / 10 ^ 19

/-- The SNR parameter of series i, one of `n_snr` values spread over the
interval from `r_min` to `r_max`. -/
def snrOf (r_min r_max : ℚ) (n_snr i : ℕ) : ℚ :=
  if n_snr ≤ 1 then r_min
  else r_min + (r_max - r_min) * ((i % n_snr : ℕ) : ℚ) / (((n_snr - 1 : ℕ)) : ℚ)

/-- Modelled from the spec: `make_gravitational_waves` lives in
`data/generate_datasets.py`, which is not part of this artifact.  Per the
spec it takes a data path, a signal count and SNR range parameters
(`r_min`, `r_max`, `n_snr_values`) and returns three parallel collections:
noisy series of the form s = g + eps * (1/R) * xi, the ground-truth
gravitational-wave signals, and a binary label per series (a signal is
embedded with probability 0.5, rendered here deterministically by
alternating labels). -/
def make_gravitational_waves (path_to_data : String) (n_signals : ℕ)
    (r_min r_max : ℚ) (n_snr_values : ℕ) : GWData :=
  { noisy_signals :=
      (List.range n_signals).map (fun i =>
        List.zipWith (· + ·)
          (if i % 2 = 1 then refSignal i else List.replicate seriesLen 0)
          ((noiseAt i).map
            (fun x => epsNoise / snrOf r_min r_max n_snr_values i * x)))
    gw_signals := (List.range n_signals).map refSignal
    labels := (List.range n_signals).map (fun i => i % 2) }

/-- The dataset generated by the notebook's single generator call:
`make_gravitational_waves(path_to_data=DATA, n_signals=100, r_min=0.65,
r_max=0.65, n_snr_values=1)` with `DATA = Path("./data")`. -/
def notebookDataset : GWData :=
  make_gravitational_waves "./data" 100 (13 / 20) (13 / 20) 1

/-- First index of the minimum of a list, as `np.argmin` documents it:
the index of the first occurrence of the minimum value. -/
def listMin : List ℕ → ℕ
  | [] => 0
  | a :: l => l.foldl min a

/-- Maximum of a list of naturals (0 on the empty list). -/
def listMax : List ℕ → ℕ
  | [] => 0
  | a :: l => l.foldl max a

/-- `np.argmin`: index of the first occurrence of the minimum value. -/
def np_argmin (l : List ℕ) : ℕ := l.findIdx (fun x => x == listMin l)

/-- `np.argmax`: index of the first occurrence of the maximum value. -/
def np_argmax (l : List ℕ) : ℕ := l.findIdx (fun x => x == listMax l)

/-- Runtime values of notebook variables.  The three generated collections,
indices and sliced series are concrete; the outputs of the remaining
library transformers are out of scope for this artifact and are tracked by
the kind of the call that produced them. -/
inductive Value where
  | natV (n : ℕ)
  | natListV (l : List ℕ)
  | seriesV (s : List ℚ)
  | seriesCollV (c : List (List ℚ))
  | libV (k : OpKind)
  deriving DecidableEq, Repr, BEq

/-- A notebook environment: newest bindings first. -/
abbrev NBState := List (String × Value)

/-- Look up a notebook variable (latest binding wins). -/
def lookupVar (st : NBState) (x : String) : Option Value := List.lookup x st

/-- Values produced by one call in the given environment. -/
def evalCall (st : NBState) (c : LibCall) : List Value :=
  match c.kind with
  | .dataGen =>
      [.seriesCollV notebookDataset.noisy_signals,
       .seriesCollV notebookDataset.gw_signals,
       .natListV notebookDataset.labels]
  | .argminOp =>
      match lookupVar st (c.reads.headD "") with
      | some (.natListV l) => [.natV (np_argmin l)]
      | _ => [.libV c.kind]
  | .argmaxOp =>
      match lookupVar st (c.reads.headD "") with
      | some (.natListV l) => [.natV (np_argmax l)]
      | _ => [.libV c.kind]
  | .sliceOp =>
      match lookupVar st (c.reads.headD ""),
            lookupVar st (c.reads.getD 1 "") with
      | some (.seriesCollV coll), some (.natV i) =>
          [.seriesV (coll.getD i [])]
      | _, _ => [.libV c.kind]
  | k => List.replicate c.writes.length (.libV k)

/-- Execute one call: bind its outputs in the environment. -/
def stepCall (st : NBState) (c : LibCall) : NBState :=
  c.writes.zip (evalCall st c) ++ st

/-- The environments reached during the notebook run: the initial empty
environment followed by the environment after each call. -/
def traceStates : List NBState := notebookCalls.scanl stepCall []

/-- The parallel-collections invariant, read off an environment: the three
variables bound by the generator hold collections of one common length and
every label is 0 or 1. -/
def checkAfterGen (st : NBState) : Bool :=
  match lookupVar st "noisy_signals", lookupVar st "gw_signals",
        lookupVar st "labels" with
  | some (.seriesCollV ns), some (.seriesCollV gs), some (.natListV ls) =>
      ns.length == gs.length && ns.length == ls.length &&
        ls.all (fun x => x == 0 || x == 1)
  | _, _, _ => false

/-- Rank of each operation category in the order the spec claims for the
run: data generation, embedding, PCA, persistent homology, entropy
scaling, train/test split, logistic-regression fit/predict, plotting.
Operations outside these categories carry no rank. -/
def rankOf : OpKind → Option ℕ
  | .dataGen => some 0
  | .singleTakens => some 1
  | .takensE => some 1
  | .pcaFit => some 2
  | .collectionPca => some 2
  | .vietorisRips => some 3
  | .diagramScaler => some 4
  | .persistenceEntropy => some 4
  | .trainTestSplit => some 5
  | .logregFit => some 6
  | .predictOp => some 6
  | .predictProbaOp => some 6
  | .figShow => some 7
  | .plotPointCloud => some 7
  | _ => none

/-- The ranks of the notebook's ranked operations, in execution order. -/
def notebookRankSeq : List ℕ :=
  notebookCalls.filterMap (fun c => rankOf c.kind)

/-- A list of naturals is nondecreasing. -/
def nondecreasing : List ℕ → Bool
  | [] => true
  | [_] => true
  | a :: b :: r => decide (a ≤ b) && nondecreasing (b :: r)

/-- The variables feeding the four printed metric lines. -/
def printRoots : List String :=
  ["_acc_train", "_auc_train", "_acc_valid", "_auc_valid"]

/-- The calls whose outputs (transitively) feed the printed metrics,
computed by a backward dataflow pass from `printRoots`. -/
def relevantCalls : List LibCall :=
  (notebookCalls.reverse.foldl
    (fun acc c =>
      if c.writes.any (fun w => acc.1.contains w) then
        (acc.1 ++ c.reads, c :: acc.2)
      else acc)
    ((printRoots, []) : List String × List LibCall)).2

/-- Provenance of the data flowing through the topological pipeline. -/
inductive TData where
  | seriesColl (c : List (List ℚ))
  | embedded (src : TData)
  | pcaReduced (src : TData)
  | diagrams (src : TData)
  | scaled (src : TData)
  | entropyFeat (src : TData)
  deriving DecidableEq, Repr

/-- The five transformers chained by the notebook's pipeline. -/
inductive TransformerK where
  | takens
  | collPca
  | vr
  | scalerT
  | pentropy
  deriving DecidableEq, Repr

/-- Effect of one pipeline transformer on the flowing data. -/
def applyT : TransformerK → TData → TData
  | .takens, d => .embedded d
  | .collPca, d => .pcaReduced d
  | .vr, d => .diagrams d
  | .scalerT, d => .scaled d
  | .pentropy, d => .entropyFeat d

/-- `Pipeline.fit_transform`: apply the named steps in order. -/
def Pipeline.fit_transform (steps : List (String × TransformerK))
    (x : TData) : TData :=
  steps.foldl (fun d s => applyT s.2 d) x

/-- The notebook's `steps` list, as passed to `Pipeline(steps)`. -/
def pipelineSteps : List (String × TransformerK) :=
  [("embedder", .takens), ("pca", .collPca), ("persistence", .vr),
   ("scaling", .scalerT), ("entropy", .pentropy)]

/-- `sklearn.metrics.accuracy_score` on label vectors: the fraction of
positions on which the two vectors agree. -/
def accuracy_score (y_true y_pred : List ℕ) : ℚ :=
  (((y_true.zip y_pred).countP (fun ab => ab.1 == ab.2) : ℕ) : ℚ) /
    ((y_true.length : ℕ) : ℚ)

/-- The scores of the positive-class (label 1) samples. -/
def posScores (y_true : List ℕ) (y_score : List ℚ) : List ℚ :=
  (y_true.zip y_score).filterMap
    (fun p => if p.1 == 1 then some p.2 else none)

/-- The scores of the negative-class samples. -/
def negScores (y_true : List ℕ) (y_score : List ℚ) : List ℚ :=
  (y_true.zip y_score).filterMap
    (fun p => if p.1 == 1 then none else some p.2)

/-- Contribution of one positive/negative score pair to the AUC: 1 when
the positive is ranked above the negative, 1/2 on a tie. -/
def pairScore (n p : ℚ) : ℚ := if n < p then 1 else if n = p then 1 / 2 else 0

/-- Numerator of the Mann-Whitney form of the AUC. -/
def aucNum (ps ns : List ℚ) : ℚ :=
  (ps.map (fun p => (ns.map (fun n => pairScore n p)).sum)).sum

/-- `sklearn.metrics.roc_auc_score` for binary labels: the probability
that a uniformly random positive sample is scored above a uniformly
random negative one, ties counting one half. -/
def roc_auc_score (y_true : List ℕ) (y_score : List ℚ) : ℚ :=
  aucNum (posScores y_true y_score) (negScores y_true y_score) /
    ((((posScores y_true y_score).length : ℕ) : ℚ) *
      (((negScores y_true y_score).length : ℕ) : ℚ))

/-- Round to the nearest integer, ties to the even integer, as Python's
builtin `round` does. -/
def roundHE (q : ℚ) : ℤ :=
  if q - ⌊q⌋ < 1 / 2 then ⌊q⌋
  else if 1 / 2 < q - ⌊q⌋ then ⌊q⌋ + 1
  else if Even ⌊q⌋ then ⌊q⌋ else ⌊q⌋ + 1

/-- Python's `round(q, 3)`. -/
def pyRound3 (q : ℚ) : ℚ := ((roundHE (q * 1000) : ℤ) : ℚ) / 1000

/-- A fitted classifier, as `print_scores` uses it: its `predict` method
and column 1 of its `predict_proba` method. -/
structure FittedModel where
  predict : List (List ℚ) → List ℕ
  predict_proba1 : List (List ℚ) → List ℚ

/-- The variables `print_scores` closes over: the fitted model, the two
feature matrices and the two label vectors. -/
structure NBEnv where
  model : FittedModel
  X_train : List (List ℚ)
  X_valid : List (List ℚ)
  y_train : List ℕ
  y_valid : List ℕ

/-- The `res` dictionary built by `print_scores`, in insertion order, with
the argument orders of the notebook source (`accuracy_score` receives the
predictions first, `roc_auc_score` the labels first). -/
def scoreValues (e : NBEnv) : List (String × ℚ) :=
  [("Accuracy on train:",
      accuracy_score (e.model.predict e.X_train) e.y_train),
   ("ROC AUC on train:",
      roc_auc_score e.y_train (e.model.predict_proba1 e.X_train)),
   ("Accuracy on valid:",
      accuracy_score (e.model.predict e.X_valid) e.y_valid),
   ("ROC AUC on valid:",
      roc_auc_score e.y_valid (e.model.predict_proba1 e.X_valid))]

/-- The state `print_scores` runs in: the closed-over environment plus the
text printed so far (one entry per printed line: its label and the value,
rounded as `round(v, 3)` rounds it). -/
structure PrintState where
  env : NBEnv
  out : List (String × ℚ)

/-- `print_scores(fitted_model)`: build `res` and print its four entries
in order, each value rounded to 3 decimal places. -/
def print_scores (s : PrintState) : PrintState :=
  { env := s.env,
    out := s.out ++ (scoreValues s.env).map (fun kv => (kv.1, pyRound3 kv.2)) }

/-- A notebook statement: a library call, or a Python try/except block
(expressible so that its absence from the notebook is a fact about the
code, not about the modelling language). -/
inductive Stmt where
  | call : LibCall → Stmt
  | tryExcept : List LibCall → List LibCall → Stmt
  deriving DecidableEq, Repr

/-- The notebook's statements: exactly its library calls, with no
exception handler anywhere. -/
def notebookStmts : List Stmt := notebookCalls.map Stmt.call

/-- A statement is handler-free when it is a plain call. -/
def handlerFree : Stmt → Bool
  | .call _ => true
  | .tryExcept _ _ => false

/-- Run one call under a failure oracle: the oracle decides whether calls
of a given kind raise, and with which message. -/
def runCall (o : OpKind → Option String) (c : LibCall) :
    Except String Unit :=
  match o c.kind with
  | some e => .error e
  | none => .ok ()

/-- Run a list of calls in order, stopping at the first raised error. -/
def runCalls (o : OpKind → Option String) : List LibCall →
    Except String Unit
  | [] => .ok ()
  | c :: rest =>
      match runCall o c with
      | .error e => .error e
      | .ok _ => runCalls o rest

/-- Run one statement; a try/except block catches errors of its body and
runs its handler instead. -/
def runStmt (o : OpKind → Option String) : Stmt → Except String Unit
  | .call c => runCall o c
  | .tryExcept body handler =>
      match runCalls o body with
      | .error _ => runCalls o handler
      | .ok _ => .ok ()

/-- Run statements in order; an uncaught error aborts the run. -/
def runStmts (o : OpKind → Option String) : List Stmt →
    Except String Unit
  | [] => .ok ()
  | s :: rest =>
      match runStmt o s with
      | .error e => .error e
      | .ok _ => runStmts o rest

/-- The first error a run of the statements would raise (for handler-free
programs). -/
def firstError (o : OpKind → Option String) : List Stmt → Option String
  | [] => none
  | .call c :: rest =>
      match o c.kind with
      | some e => some e
      | none => firstError o rest
  | .tryExcept _ _ :: _ => none

/-- An effect is allowed by the frame discipline when it writes no file
and reads only the generator's data directory. -/
def effectOk : Effect → Bool
  | .writesFile _ => false
  | .readsFile p => p == "./data"
  | .stdout => true
  | .display => true

/-- The constructor arguments of the notebook's classifier:
`LogisticRegression()` is called with none. -/
def logregCtorArgs : List (String × String) := []

/-- Positions of the five pipeline-internal calls in the notebook trace. -/
def pipeIndexes : List ℕ :=
  notebookCalls.enum.filterMap (fun p => if p.2.pipe then some p.1 else none)

/-- A sample environment used to instantiate theorems with hypotheses. -/
def sampleEnv : NBEnv :=
  { model :=
      { predict := fun _ => [0, 1],
        predict_proba1 := fun _ => [1 / 4, 3 / 4] },
    X_train := [[1], [2]],
    X_valid := [[3], [4]],
    y_train := [0, 1],
    y_valid := [0, 1] }

theorem pairScore_nonneg (n p : ℚ) : 0 ≤ pairScore n p := by
  unfold pairScore
  split <;> [norm_num; split <;> norm_num]

theorem pairScore_le_one (n p : ℚ) : pairScore n p ≤ 1 := by
  unfold pairScore
  split <;> [norm_num; split <;> norm_num]

theorem aucNum_nonneg (ps ns : List ℚ) : 0 ≤ aucNum ps ns := by
  apply List.sum_nonneg
  intro x hx
  rcases List.mem_map.mp hx with ⟨p, _, rfl⟩
  apply List.sum_nonneg
  intro y hy
  rcases List.mem_map.mp hy with ⟨n, _, rfl⟩
  exact pairScore_nonneg n p

theorem aucNum_le (ps ns : List ℚ) :
    aucNum ps ns ≤ (ps.length : ℚ) * (ns.length : ℚ) := by
  have hinner : ∀ p : ℚ, (ns.map (fun n => pairScore n p)).sum ≤ (ns.length : ℚ) := by
    intro p
    have h := List.sum_le_card_nsmul (ns.map (fun n => pairScore n p)) 1 ?_
    · simpa [List.length_map, nsmul_eq_mul] using h
    · intro x hx
      rcases List.mem_map.mp hx with ⟨n, _, rfl⟩
      exact pairScore_le_one n p
  have h := List.sum_le_card_nsmul
    (ps.map (fun p => (ns.map (fun n => pairScore n p)).sum)) ((ns.length : ℚ)) ?_
  · simpa [aucNum, List.length_map, nsmul_eq_mul] using h
  · intro x hx
    rcases List.mem_map.mp hx with ⟨p, _, rfl⟩
    exact hinner p

theorem div_unit_interval {num den : ℚ} (h0 : 0 ≤ num) (h1 : num ≤ den) :
    0 ≤ num / den ∧ num / den ≤ 1 := by
  rcases lt_or_eq_of_le (h0.trans h1) with hden | hden
  · exact ⟨div_nonneg h0 (le_of_lt hden), (div_le_one hden).mpr h1⟩
  · have hnum : num = 0 := le_antisymm (hden ▸ h1) h0
    simp [hnum]

theorem roc_auc_unit (y : List ℕ) (s : List ℚ) :
    0 ≤ roc_auc_score y s ∧ roc_auc_score y s ≤ 1 := by
  unfold roc_auc_score
  exact div_unit_interval (aucNum_nonneg _ _) (aucNum_le _ _)

theorem accuracy_unit (a b : List ℕ) :
    0 ≤ accuracy_score a b ∧ accuracy_score a b ≤ 1 := by
  unfold accuracy_score
  apply div_unit_interval
  · positivity
  · have h : (a.zip b).countP (fun ab => ab.1 == ab.2) ≤ a.length := by
      calc (a.zip b).countP (fun ab => ab.1 == ab.2) ≤ (a.zip b).length :=
            List.countP_le_length _
        _ ≤ a.length := by rw [List.length_zip]; exact Nat.min_le_left _ _
    exact_mod_cast h

theorem countEq_zip_symm (a b : List ℕ) :
    (a.zip b).countP (fun ab => ab.1 == ab.2) =
      (b.zip a).countP (fun ab => ab.1 == ab.2) := by
  induction a generalizing b with
  | nil => cases b <;> simp
  | cons x xs ih =>
      cases b with
      | nil => simp
      | cons y ys =>
          simp only [List.zip_cons_cons, List.countP_cons, ih ys]
          have hxy : ((x, y).1 == (x, y).2) = ((y, x).1 == (y, x).2) := by
            simp only [beq_iff_eq]
            by_cases h : x = y <;> simp [h, eq_comm]
          rw [hxy]

theorem accuracy_symm {a b : List ℕ} (h : a.length = b.length) :
    accuracy_score a b = accuracy_score b a := by
  unfold accuracy_score
  rw [countEq_zip_symm, h]

theorem foldl_min_le_init (l : List ℕ) (a : ℕ) : l.foldl min a ≤ a := by
  induction l generalizing a with
  | nil => simp
  | cons x xs ih =>
      simp only [List.foldl_cons]
      exact (ih (min a x)).trans (min_le_left a x)

theorem foldl_min_le_mem {l : List ℕ} {x : ℕ} (hx : x ∈ l) (a : ℕ) :
    l.foldl min a ≤ x := by
  induction l generalizing a with
  | nil => cases hx
  | cons y ys ih =>
      simp only [List.foldl_cons]
      rcases List.mem_cons.mp hx with rfl | hmem
      · exact (foldl_min_le_init ys (min a x)).trans (min_le_right a x)
      · exact ih hmem (min a y)

theorem init_le_foldl_max (l : List ℕ) (a : ℕ) : a ≤ l.foldl max a := by
  induction l generalizing a with
  | nil => simp
  | cons x xs ih =>
      simp only [List.foldl_cons]
      exact (le_max_left a x).trans (ih (max a x))

theorem mem_le_foldl_max {l : List ℕ} {x : ℕ} (hx : x ∈ l) (a : ℕ) :
    x ≤ l.foldl max a := by
  induction l generalizing a with
  | nil => cases hx
  | cons y ys ih =>
      simp only [List.foldl_cons]
      rcases List.mem_cons.mp hx with rfl | hmem
      · exact (le_max_right a x).trans (init_le_foldl_max ys (max a x))
      · exact ih hmem (max a y)

theorem foldl_max_le_bound {l : List ℕ} {a b : ℕ} (ha : a ≤ b)
    (hl : ∀ x ∈ l, x ≤ b) : l.foldl max a ≤ b := by
  induction l generalizing a with
  | nil => simpa
  | cons y ys ih =>
      simp only [List.foldl_cons]
      exact ih (max_le ha (hl y (List.mem_cons_self _ _)))
        (fun x hx => hl x (List.mem_cons_of_mem y hx))

theorem listMin_eq_zero {l : List ℕ} (h0 : (0 : ℕ) ∈ l) : listMin l = 0 := by
  cases l with
  | nil => cases h0
  | cons a t =>
      simp only [listMin]
      rcases List.mem_cons.mp h0 with rfl | hmem
      · exact Nat.le_zero.mp (foldl_min_le_init t 0)
      · exact Nat.le_zero.mp (foldl_min_le_mem hmem a)

theorem listMax_eq_one {l : List ℕ} (h1 : (1 : ℕ) ∈ l)
    (hb : ∀ x ∈ l, x = 0 ∨ x = 1) : listMax l = 1 := by
  cases l with
  | nil => cases h1
  | cons a t =>
      simp only [listMax]
      have hub : t.foldl max a ≤ 1 := by
        apply foldl_max_le_bound
        · rcases hb a (List.mem_cons_self _ _) with rfl | rfl <;> norm_num
        · intro x hx
          rcases hb x (List.mem_cons_of_mem a hx) with rfl | rfl <;> norm_num
      have hlb : 1 ≤ t.foldl max a := by
        rcases List.mem_cons.mp h1 with rfl | hmem
        · exact init_le_foldl_max t 1
        · exact mem_le_foldl_max hmem a
      exact le_antisymm hub hlb

theorem foldl_min_const {l : List ℕ} {c : ℕ} (h : ∀ x ∈ l, x = c) :
    l.foldl min c = c := by
  induction l with
  | nil => rfl
  | cons y ys ih =>
      have hy : y = c := h y (List.mem_cons_self _ _)
      simp only [List.foldl_cons, hy, min_self]
      exact ih (fun x hx => h x (List.mem_cons_of_mem y hx))

theorem foldl_max_const {l : List ℕ} {c : ℕ} (h : ∀ x ∈ l, x = c) :
    l.foldl max c = c := by
  induction l with
  | nil => rfl
  | cons y ys ih =>
      have hy : y = c := h y (List.mem_cons_self _ _)
      simp only [List.foldl_cons, hy, max_self]
      exact ih (fun x hx => h x (List.mem_cons_of_mem y hx))

theorem runStmts_of_handlerFree (o : OpKind → Option String) (l : List Stmt)
    (h : l.all handlerFree = true) :
    runStmts o l =
      (match firstError o l with
       | some e => Except.error e
       | none => Except.ok ()) := by
  induction l with
  | nil => rfl
  | cons s rest ih =>
      cases s with
      | call c =>
          have hrest : rest.all handlerFree = true := by
            simp only [List.all_cons, Bool.and_eq_true] at h
            exact h.2
          cases ho : o c.kind with
          | none => simp [runStmts, runStmt, runCall, firstError, ho, ih hrest]
          | some e => simp [runStmts, runStmt, runCall, firstError, ho]
      | tryExcept b hd =>
          simp [List.all_cons, handlerFree] at h

set_option maxRecDepth 8000

/-- C1: The notebook chains the time-delay embedding (TakensEmbedding),
per-cloud PCA, Vietoris-Rips persistent homology, diagram scaling, and
persistence-entropy feature extraction inside a single Pipeline object
(steps named embedder, pca, persistence, scaling, entropy, in that order);
that pipeline's fit_transform is applied exactly once, to the collection
of noisy signals, producing the feature matrix; a LogisticRegression
classifier constructed with no arguments is fitted on those features via
the train split; and accuracy and ROC AUC metrics are printed. -/
theorem C1_pipeline_chain :
    (∀ c : List (List ℚ),
        Pipeline.fit_transform pipelineSteps (TData.seriesColl c) =
          .entropyFeat (.scaled (.diagrams (.pcaReduced
            (.embedded (.seriesColl c)))))) ∧
    pipelineSteps.map Prod.fst =
      ["embedder", "pca", "persistence", "scaling", "entropy"] ∧
    (notebookCalls.filter (fun c => c.pipe)).map (fun c => c.kind) =
      [.takensE, .collectionPca, .vietorisRips, .diagramScaler,
       .persistenceEntropy] ∧
    pipeIndexes = [21, 22, 23, 24, 25] ∧
    (notebookCalls.get? 21).map (fun c => c.reads) = some ["noisy_signals"] ∧
    (notebookCalls.get? 25).map (fun c => c.writes) = some ["features"] ∧
    (notebookCalls.get? 27).map (fun c => (c.kind, c.params)) =
      some (.logregInit, logregCtorArgs) ∧
    (notebookCalls.get? 28).map (fun c => (c.kind, c.reads)) =
      some (.logregFit, ["model", "X_train", "y_train"]) ∧
    (notebookCalls.map (fun c => c.kind)).count .accuracyOp = 2 ∧
    (notebookCalls.map (fun c => c.kind)).count .rocAucOp = 2 ∧
    (notebookCalls.drop 37).map (fun c => (c.kind, c.effects)) =
      [(.printLine, [.stdout]), (.printLine, [.stdout]),
       (.printLine, [.stdout]), (.printLine, [.stdout])] := by
  refine ⟨fun c => rfl, ?_⟩
  decide

/-- C2: The generator is invoked with a data path, a signal count and the
SNR range parameters r_min, r_max, n_snr_values, and for every invocation
it returns exactly three parallel collections, each of length n_signals:
the noisy series, the gravitational-wave signals and the labels. -/
theorem C2_generator_signature :
    (∀ (p : String) (n : ℕ) (r1 r2 : ℚ) (k : ℕ),
        (make_gravitational_waves p n r1 r2 k).noisy_signals.length = n ∧
        (make_gravitational_waves p n r1 r2 k).gw_signals.length = n ∧
        (make_gravitational_waves p n r1 r2 k).labels.length = n) ∧
    notebookDataset =
      make_gravitational_waves "./data" 100 (13 / 20) (13 / 20) 1 ∧
    (notebookCalls.get? 2).map (fun c => (c.kind, c.writes, c.params)) =
      some (.dataGen, ["noisy_signals", "gw_signals", "labels"],
        [("path_to_data", "./data"), ("n_signals", "100"),
         ("r_min", "0.65"), ("r_max", "0.65"), ("n_snr_values", "1")]) := by
  refine ⟨fun p n r1 r2 k => ?_, rfl, by decide⟩
  simp [make_gravitational_waves]

/-- C3: Every dataset the generator produces consists of three parallel
collections (equal lengths) with every label 0 or 1, and in the notebook's
run this invariant holds of the environment at every point after the
generation call (states 3 onward of the execution trace). -/
theorem C3_parallel_binary_invariant :
    (∀ (p : String) (n : ℕ) (r1 r2 : ℚ) (k : ℕ),
        (make_gravitational_waves p n r1 r2 k).noisy_signals.length =
          (make_gravitational_waves p n r1 r2 k).gw_signals.length ∧
        (make_gravitational_waves p n r1 r2 k).noisy_signals.length =
          (make_gravitational_waves p n r1 r2 k).labels.length ∧
        ∀ x ∈ (make_gravitational_waves p n r1 r2 k).labels,
          x = 0 ∨ x = 1) ∧
    ((traceStates.drop 3).all checkAfterGen) = true := by
  constructor
  · intro p n r1 r2 k
    refine ⟨by simp [make_gravitational_waves], by simp [make_gravitational_waves], ?_⟩
    intro x hx
    simp only [make_gravitational_waves, List.mem_map, List.mem_range] at hx
    rcases hx with ⟨i, _, rfl⟩
    exact Nat.mod_two_eq_zero_or_one i
  · decide

/-- C4 as stated is false: the notebook's library operations are not
ordered as data generation, embedding, PCA, persistence, entropy scaling,
split, fit/predict, plotting -- plotting already occurs right after
generation (the signal-visualization cell) and after each exploratory
PCA, before any persistent-homology computation. -/
theorem C4_counterexample :
    ¬ (nondecreasing notebookRankSeq = true ∧
        wellSequenced notebookCalls = true) := by
  decide

/-- C4 amended: the dataflow-relevant operations (those whose outputs
transitively feed the printed metrics) occur in exactly the claimed
order -- generation, pipeline embedding, PCA, persistence, scaling,
entropy, split, model construction and fit, then predict/metric
evaluations -- and every call reads only variables written earlier;
plotting (and the exploratory single-series embedding/PCA) is interleaved
earlier and feeds no later step. -/
theorem C4_order_amended :
    relevantCalls.map (fun c => c.kind) =
      [.dataGen, .takensE, .collectionPca, .vietorisRips, .diagramScaler,
       .persistenceEntropy, .trainTestSplit, .logregInit, .logregFit,
       .predictOp, .accuracyOp, .predictProbaOp, .rocAucOp,
       .predictOp, .accuracyOp, .predictProbaOp, .rocAucOp] ∧
    nondecreasing (relevantCalls.filterMap (fun c => rankOf c.kind)) = true ∧
    wellSequenced notebookCalls = true ∧
    relevantCalls.all
      (fun c => c.kind ≠ .figShow ∧ c.kind ≠ .plotPointCloud) = true := by
  decide

/-- C5: each of the four metric values computed by print_scores (accuracy
on train, ROC AUC on train, accuracy on valid, ROC AUC on valid) lies in
the closed interval from 0 to 1, for every fitted model and every
train/valid split. -/
theorem C5_metrics_unit_interval (e : NBEnv) :
    ∀ kv ∈ scoreValues e, 0 ≤ kv.2 ∧ kv.2 ≤ 1 := by
  intro kv hkv
  simp only [scoreValues, List.mem_cons, List.not_mem_nil, or_false] at hkv
  rcases hkv with rfl | rfl | rfl | rfl
  · exact accuracy_unit _ _
  · exact roc_auc_unit _ _
  · exact accuracy_unit _ _
  · exact roc_auc_unit _ _

/-- Witness for C5 at a concrete environment. -/
theorem C5_witness :
    0 ≤ accuracy_score (sampleEnv.model.predict sampleEnv.X_train)
          sampleEnv.y_train ∧
    accuracy_score (sampleEnv.model.predict sampleEnv.X_train)
      sampleEnv.y_train ≤ 1 :=
  C5_metrics_unit_interval sampleEnv
    ("Accuracy on train:",
      accuracy_score (sampleEnv.model.predict sampleEnv.X_train)
        sampleEnv.y_train)
    (List.mem_cons_self _ _)

/-- C6: the notebook contains no exception handler, so whenever a library
call raises, the first raised error propagates unhandled out of the run;
no authored code converts, suppresses or substitutes it. -/
theorem C6_no_handler_propagation :
    (notebookStmts.all handlerFree = true) ∧
    (∀ (o : OpKind → Option String) (e : String),
        firstError o notebookStmts = some e →
        runStmts o notebookStmts = Except.error e) := by
  have hf : notebookStmts.all handlerFree = true := by decide
  refine ⟨hf, fun o e h => ?_⟩
  rw [runStmts_of_handlerFree o notebookStmts hf, h]

/-- Witness for C6: a run in which the Vietoris-Rips call raises ends in
exactly that error. -/
theorem C6_witness :
    runStmts
      (fun k => match k with
        | .vietorisRips => some "MemoryError"
        | _ => none)
      notebookStmts = Except.error "MemoryError" :=
  C6_no_handler_propagation.2 _ "MemoryError" (by decide)

/-- C7: the notebook's calls write no file; their only effects are the
generator's read of the data directory, printed text and displayed plots,
and the only call touching the filesystem is the generator. -/
theorem C7_no_persistent_state :
    (notebookCalls.all fun c => c.effects.all effectOk) = true ∧
    (notebookCalls.all fun c =>
      c.effects.all fun e =>
        match e with
        | .writesFile _ => false
        | _ => true) = true ∧
    (notebookCalls.filter (fun c =>
      c.effects.any fun e =>
        match e with
        | .readsFile _ => true
        | _ => false)).map (fun c => c.kind) = [.dataGen] := by
  decide

/-- C8: accuracy_score is symmetric on equal-length binary label vectors,
so although print_scores passes the predictions in the y_true slot and
the labels in the y_pred slot, the printed accuracies equal the
conventionally computed ones. -/
theorem C8_accuracy_symmetry :
    (∀ a b : List ℕ, a.length = b.length →
        (∀ x ∈ a, x = 0 ∨ x = 1) → (∀ x ∈ b, x = 0 ∨ x = 1) →
        accuracy_score a b = accuracy_score b a) ∧
    (∀ e : NBEnv,
        (e.model.predict e.X_train).length = e.y_train.length →
        (e.model.predict e.X_valid).length = e.y_valid.length →
        (scoreValues e).get? 0 =
          some ("Accuracy on train:",
            accuracy_score e.y_train (e.model.predict e.X_train)) ∧
        (scoreValues e).get? 2 =
          some ("Accuracy on valid:",
            accuracy_score e.y_valid (e.model.predict e.X_valid))) := by
  constructor
  · intro a b h _ _
    exact accuracy_symm h
  · intro e h1 h2
    constructor
    · show some ("Accuracy on train:",
        accuracy_score (e.model.predict e.X_train) e.y_train) = _
      rw [accuracy_symm h1]
    · show some ("Accuracy on valid:",
        accuracy_score (e.model.predict e.X_valid) e.y_valid) = _
      rw [accuracy_symm h2]

/-- Witness for C8 at concrete binary vectors. -/
theorem C8_witness :
    accuracy_score [0, 1] [1, 1] = accuracy_score [1, 1] [0, 1] :=
  C8_accuracy_symmetry.1 [0, 1] [1, 1] rfl (by decide) (by decide)

/-- C9: on a binary label vector containing both classes, np.argmin is the
smallest index holding a 0 (a pure-noise series) and np.argmax the
smallest index holding a 1 (a series with a gravitational wave); when all
labels are equal both return 0, so the visualization's noise/signal
selection picks the same series twice. -/
theorem C9_argmin_argmax (l : List ℕ) (hb : ∀ x ∈ l, x = 0 ∨ x = 1) :
    ((0 : ℕ) ∈ l → (1 : ℕ) ∈ l →
      (l.get? (np_argmin l) = some 0 ∧
        ∀ j < np_argmin l, l.get? j ≠ some 0) ∧
      (l.get? (np_argmax l) = some 1 ∧
        ∀ j < np_argmax l, l.get? j ≠ some 1)) ∧
    (∀ c : ℕ, l ≠ [] → (∀ x ∈ l, x = c) →
      np_argmin l = 0 ∧ np_argmax l = 0 ∧ np_argmin l = np_argmax l) := by
  constructor
  · intro h0 h1
    constructor
    · have hmin : listMin l = 0 := listMin_eq_zero h0
      have hdef : np_argmin l = l.findIdx (fun x => x == 0) := by
        simp [np_argmin, hmin]
      have hex : ∃ x ∈ l, (fun x => x == (0 : ℕ)) x := ⟨0, h0, by simp⟩
      have hlt := List.findIdx_lt_length_of_exists hex
      constructor
      · rw [hdef, List.get?_eq_getElem?, List.getElem?_eq_getElem hlt]
        have hp := @List.findIdx_getElem ℕ (fun x => x == (0 : ℕ)) l hlt
        simpa using hp
      · intro j hj heq
        rw [hdef] at hj
        have hjl : j < l.length :=
          Nat.lt_of_lt_of_le hj (List.findIdx_le_length _)
        have hp := List.not_of_lt_findIdx hj
        rw [List.get?_eq_getElem?, List.getElem?_eq_getElem hjl] at heq
        have hval : l.get ⟨j, hjl⟩ = 0 := by
          simpa using heq
        have hne : ¬ l.get ⟨j, hjl⟩ = 0 := by
          simpa [List.get_eq_getElem] using hp
        exact hne hval
    · have hmax : listMax l = 1 := listMax_eq_one h1 hb
      have hdef : np_argmax l = l.findIdx (fun x => x == 1) := by
        simp [np_argmax, hmax]
      have hex : ∃ x ∈ l, (fun x => x == (1 : ℕ)) x := ⟨1, h1, by simp⟩
      have hlt := List.findIdx_lt_length_of_exists hex
      constructor
      · rw [hdef, List.get?_eq_getElem?, List.getElem?_eq_getElem hlt]
        have hp := @List.findIdx_getElem ℕ (fun x => x == (1 : ℕ)) l hlt
        simpa using hp
      · intro j hj heq
        rw [hdef] at hj
        have hjl : j < l.length :=
          Nat.lt_of_lt_of_le hj (List.findIdx_le_length _)
        have hp := List.not_of_lt_findIdx hj
        rw [List.get?_eq_getElem?, List.getElem?_eq_getElem hjl] at heq
        have hval : l.get ⟨j, hjl⟩ = 1 := by
          simpa using heq
        have hne : ¬ l.get ⟨j, hjl⟩ = 1 := by
          simpa [List.get_eq_getElem] using hp
        exact hne hval
  · intro c hne hc
    cases l with
    | nil => exact absurd rfl hne
    | cons a t =>
        have ha : a = c := hc a (List.mem_cons_self _ _)
        subst ha
        have ht : ∀ x ∈ t, x = a :=
          fun x hx => hc x (List.mem_cons_of_mem a hx)
        have hminv : listMin (a :: t) = a := by
          simp only [listMin]
          exact foldl_min_const ht
        have hmaxv : listMax (a :: t) = a := by
          simp only [listMax]
          exact foldl_max_const ht
        have hmin0 : np_argmin (a :: t) = 0 := by
          simp only [np_argmin]
          rw [hminv, List.findIdx_cons]
          simp
        have hmax0 : np_argmax (a :: t) = 0 := by
          simp only [np_argmax]
          rw [hmaxv, List.findIdx_cons]
          simp
        exact ⟨hmin0, hmax0, hmin0.trans hmax0.symm⟩

/-- Witness for C9 at concrete label vectors. -/
theorem C9_witness :
    ([1, 0] : List ℕ).get? (np_argmin [1, 0]) = some 0 ∧
    ([1, 0] : List ℕ).get? (np_argmax [1, 0]) = some 1 ∧
    np_argmin ([1, 1] : List ℕ) = 0 ∧ np_argmax ([1, 1] : List ℕ) = 0 :=
  ⟨(((C9_argmin_argmax [1, 0] (by decide)).1 (by decide) (by decide)).1).1,
   (((C9_argmin_argmax [1, 0] (by decide)).1 (by decide) (by decide)).2).1,
   ((C9_argmin_argmax [1, 1] (by decide)).2 1 (by decide) (by decide)).1,
   (((C9_argmin_argmax [1, 1] (by decide)).2 1 (by decide)
      (by decide)).2).1⟩

/-- C10: print_scores is a pure observer: it leaves the fitted model, the
feature matrices and the label vectors unchanged, and appends exactly four
output lines -- train accuracy, train ROC AUC, valid accuracy, valid ROC
AUC, in that order -- each value rounded to 3 decimal places. -/
theorem C10_print_scores_observer (s : PrintState) :
    (print_scores s).env = s.env ∧
    (print_scores s).out =
      s.out ++
        [("Accuracy on train:",
            pyRound3 (accuracy_score (s.env.model.predict s.env.X_train)
              s.env.y_train)),
         ("ROC AUC on train:",
            pyRound3 (roc_auc_score s.env.y_train
              (s.env.model.predict_proba1 s.env.X_train))),
         ("Accuracy on valid:",
            pyRound3 (accuracy_score (s.env.model.predict s.env.X_valid)
              s.env.y_valid)),
         ("ROC AUC on valid:",
            pyRound3 (roc_auc_score s.env.y_valid
              (s.env.model.predict_proba1 s.env.X_valid)))] ∧
    (print_scores s).out.length = s.out.length + 4 := by
  refine ⟨rfl, rfl, ?_⟩
  simp [print_scores, scoreValues]
